import Mathlib

/-!
Verification development for the EFIS Sensor Health & Fusion Monitor
(`efis_sensors.py`, class `EFISSensors`).

The embedding is a shallow, executable translation of the monitor:
timestamps and samples are exact rationals (`ℚ`), device reads and driver
attaches are passed in as explicit outcome values, and the Python
exception control flow (`SensorFault` raised by the fault handlers in
`exception` mode, `try`/`except` blocks in `update_all` and `__init__`)
is modelled by an `Out` value carrying the state together with an
optional pending fault, sequenced by `stepOut` (a raised fault skips the
rest of the cycle exactly as an uncaught Python exception would).

The single non-rational operation of the source, the float power
`x ** 0.1903` in the derived-altitude formula, is abstracted as a
configuration field `rpow1903 : ℚ → ℚ`; everything else is translated
literally.  Logging and console printing are side effects with no
bearing on the monitored state and are not modelled.
-/

namespace Efis

/-- Device status strings used in `self._status[...]["status"]`:
"UNKNOWN", "OK", "WARN", "FAULT", "MISSING". -/
inductive Status
  | unknown
  | ok
  | warn
  | fault
  | missing
deriving DecidableEq, Repr

/-- One entry of `self._status`: `{"status": ..., "last_update": ..., "error": ...}`. -/
structure DRec where
  status : Status
  lastUpdate : Option ℚ
  error : Option String
deriving DecidableEq, Repr

/-- `fault_mode` configuration: "silent" | "warn" | "exception". -/
inductive FaultMode
  | silent
  | warn
  | exception
deriving DecidableEq, Repr

/-- Monitor configuration fixed at construction (`__init__` parameters).
`rpow1903` models the float power `x ** 0.1903` used in the altitude
formula (abstract, since the exponent is fractional). -/
structure Config where
  sm : ℚ
  faultMode : FaultMode
  pressureMin : ℚ
  pressureMax : ℚ
  altMin : ℚ
  altMax : ℚ
  voltMin : ℚ
  voltMax : ℚ
  timeout : ℚ
  rpow1903 : ℚ → ℚ

/-- The keys of `self._status` / `self._last`. -/
inductive Dev
  | bno085
  | mprls
  | ads1015_1
  | ads1015_2
  | i2c
deriving DecidableEq, Repr

/-- The key string used in log and exception messages. -/
def devName : Dev → String
  | Dev.bno085 => "bno085"
  | Dev.mprls => "mprls"
  | Dev.ads1015_1 => "ads1015_1"
  | Dev.ads1015_2 => "ads1015_2"
  | Dev.i2c => "i2c"

/-- The monitor state: driver handles (`self.bno` etc., reduced to liveness
booleans), smoothed values, the `self._last` staleness timestamps and the
`self._status` records. -/
structure SState where
  bnoLive : Bool
  mprLive : Bool
  ads1Live : Bool
  ads2Live : Bool
  pressureSmooth : Option ℚ
  altitudeSmooth : Option ℚ
  analog1 : Option ℚ
  analog2 : Option ℚ
  analog3 : Option ℚ
  analog4 : Option ℚ
  lastBno : Option ℚ
  lastMpr : Option ℚ
  lastAds1 : Option ℚ
  lastAds2 : Option ℚ
  lastI2c : Option ℚ
  recBno : DRec
  recMpr : DRec
  recAds1 : DRec
  recAds2 : DRec
  recI2c : DRec
deriving DecidableEq, Repr

/-- `self._status[d]`. -/
def SState.recOf (s : SState) : Dev → DRec
  | Dev.bno085 => s.recBno
  | Dev.mprls => s.recMpr
  | Dev.ads1015_1 => s.recAds1
  | Dev.ads1015_2 => s.recAds2
  | Dev.i2c => s.recI2c

/-- `self._last[d]`. -/
def SState.lastOf (s : SState) : Dev → Option ℚ
  | Dev.bno085 => s.lastBno
  | Dev.mprls => s.lastMpr
  | Dev.ads1015_1 => s.lastAds1
  | Dev.ads1015_2 => s.lastAds2
  | Dev.i2c => s.lastI2c

/-- Whether the device handle is non-None (`self.bno`, `self.mpr`, ...);
the bus handle is not consulted by `update_all`. -/
def SState.liveOf (s : SState) : Dev → Bool
  | Dev.bno085 => s.bnoLive
  | Dev.mprls => s.mprLive
  | Dev.ads1015_1 => s.ads1Live
  | Dev.ads1015_2 => s.ads2Live
  | Dev.i2c => true

/-- `self._status[d].update(...)` with a full record. -/
def SState.setRec (s : SState) : Dev → DRec → SState
  | Dev.bno085, r => { s with recBno := r }
  | Dev.mprls, r => { s with recMpr := r }
  | Dev.ads1015_1, r => { s with recAds1 := r }
  | Dev.ads1015_2, r => { s with recAds2 := r }
  | Dev.i2c, r => { s with recI2c := r }

/-- `get_status` returns (a copy of) the per-device records. -/
def statusSnapshot (s : SState) : Dev → DRec := s.recOf

/-- `all_systems_ok`: every record's status is exactly "OK". -/
def allSystemsOk (s : SState) : Bool :=
  (s.recBno.status == Status.ok) && (s.recMpr.status == Status.ok) &&
  (s.recAds1.status == Status.ok) && (s.recAds2.status == Status.ok) &&
  (s.recI2c.status == Status.ok)

/-- `EFISSensors._smooth(prev, new)`:
`new` if `prev is None`, else `SM * new + (1 - SM) * prev`. -/
def smooth (alpha : ℚ) (prev : Option ℚ) (sample : ℚ) : ℚ :=
  match prev with
  | none => sample
  | some p => alpha * sample + (1 - alpha) * p

/-- Outcome of a code section: the state it left behind, plus
`some msg` when it raised `SensorFault(msg)` (only possible in
`exception` fault mode). -/
structure Out where
  state : SState
  fault : Option String
deriving DecidableEq, Repr

/-- Sequencing in the presence of an uncaught `SensorFault`: once a fault
is pending, the rest of the cycle does not run. -/
def stepOut (o : Out) (f : SState → Out) : Out :=
  match o with
  | ⟨s, none⟩ => f s
  | ⟨s, some m⟩ => ⟨s, some m⟩

/-- `_handle_fault(key, message)`: sets the record to
`{"status": "FAULT", "last_update": None, "error": message}` and, in
`exception` mode, raises `SensorFault(f"{key}: {message}")`. -/
def handleFault (cfg : Config) (s : SState) (d : Dev) (msg : String) : Out :=
  let s1 := s.setRec d ⟨Status.fault, none, some msg⟩
  ⟨s1, if cfg.faultMode = FaultMode.exception then some (devName d ++ ": " ++ msg) else none⟩

/-- `_handle_warn(key, message)`: sets the record to
`{"status": "WARN", "last_update": <current value>, "error": message}`
and, in `exception` mode, raises `SensorFault(f"{key}: {message}")`. -/
def handleWarn (cfg : Config) (s : SState) (d : Dev) (msg : String) : Out :=
  let s1 := s.setRec d ⟨Status.warn, (s.recOf d).lastUpdate, some msg⟩
  ⟨s1, if cfg.faultMode = FaultMode.exception then some (devName d ++ ": " ++ msg) else none⟩

/-- `_handle_warn` called from inside one of the per-device `try` blocks
of `update_all`: in `exception` mode the `SensorFault` it raises is
caught by that block's `except Exception as e` clause, which calls
`_handle_fault(key, f"Read error: {e}")`, whose own raise then escapes. -/
def warnCaught (cfg : Config) (s : SState) (d : Dev) (msg : String) : Out :=
  let s1 := s.setRec d ⟨Status.warn, (s.recOf d).lastUpdate, some msg⟩
  if cfg.faultMode = FaultMode.exception then
    handleFault cfg s1 d ("Read error: " ++ devName d ++ ": " ++ msg)
  else
    ⟨s1, none⟩

/-- Outcome of `self.bno.quaternion` (value unused by `update_all`). -/
inductive Read0
  | ok
  | err (msg : String)
deriving DecidableEq, Repr

/-- Outcome of `float(self.mpr.pressure)`. -/
inductive Read1
  | ok (v : ℚ)
  | err (msg : String)
deriving DecidableEq, Repr

/-- Joint outcome of the two channel reads of one ADS1015 bank
(`float(self.chX.voltage)`); any exception in either read faults the
whole bank before anything is stored. -/
inductive Read2
  | ok (v1 v2 : ℚ)
  | err (msg : String)
deriving DecidableEq, Repr

/-- The driver read outcomes offered to one `update_all` cycle. -/
structure Reads where
  bno : Read0
  mpr : Read1
  ads1 : Read2
  ads2 : Read2
deriving DecidableEq, Repr

/-- The BNO085 section of `update_all`. -/
def bnoBlock (cfg : Config) (r : Reads) (now : ℚ) (s : SState) : Out :=
  if s.bnoLive then
    match r.bno with
    | Read0.ok =>
        ⟨{ s with lastBno := some now, recBno := ⟨Status.ok, some now, none⟩ }, none⟩
    | Read0.err m => handleFault cfg s Dev.bno085 ("Read error: " ++ m)
  else ⟨s, none⟩

/-- The MPRLS section of `update_all`: on success update `_last`,
status OK, smooth the raw pressure, then range-check the raw sample. -/
def mprBlock (cfg : Config) (r : Reads) (now : ℚ) (s : SState) : Out :=
  if s.mprLive then
    match r.mpr with
    | Read1.ok p =>
        let s1 := { s with lastMpr := some now, recMpr := ⟨Status.ok, some now, none⟩,
                           pressureSmooth := some (smooth cfg.sm s.pressureSmooth p) }
        if cfg.pressureMin ≤ p ∧ p ≤ cfg.pressureMax then ⟨s1, none⟩
        else warnCaught cfg s1 Dev.mprls "Pressure out-of-range"
    | Read1.err m => handleFault cfg s Dev.mprls ("Read error: " ++ m)
  else ⟨s, none⟩

/-- The first ADS1015 section of `update_all`: both channels read, then
status OK, both smoothed, then each raw voltage range-checked in turn. -/
def ads1Block (cfg : Config) (r : Reads) (now : ℚ) (s : SState) : Out :=
  if s.ads1Live then
    match r.ads1 with
    | Read2.ok v1 v2 =>
        let s1 := { s with lastAds1 := some now, recAds1 := ⟨Status.ok, some now, none⟩,
                           analog1 := some (smooth cfg.sm s.analog1 v1),
                           analog2 := some (smooth cfg.sm s.analog2 v2) }
        stepOut
          (if cfg.voltMin ≤ v1 ∧ v1 ≤ cfg.voltMax then ⟨s1, none⟩
           else warnCaught cfg s1 Dev.ads1015_1 "Sensor1 voltage out-of-range")
          (fun t =>
            if cfg.voltMin ≤ v2 ∧ v2 ≤ cfg.voltMax then ⟨t, none⟩
            else warnCaught cfg t Dev.ads1015_1 "Sensor2 voltage out-of-range")
    | Read2.err m => handleFault cfg s Dev.ads1015_1 ("Read error: " ++ m)
  else ⟨s, none⟩

/-- The second ADS1015 section of `update_all`. -/
def ads2Block (cfg : Config) (r : Reads) (now : ℚ) (s : SState) : Out :=
  if s.ads2Live then
    match r.ads2 with
    | Read2.ok v3 v4 =>
        let s1 := { s with lastAds2 := some now, recAds2 := ⟨Status.ok, some now, none⟩,
                           analog3 := some (smooth cfg.sm s.analog3 v3),
                           analog4 := some (smooth cfg.sm s.analog4 v4) }
        stepOut
          (if cfg.voltMin ≤ v3 ∧ v3 ≤ cfg.voltMax then ⟨s1, none⟩
           else warnCaught cfg s1 Dev.ads1015_2 "Sensor3 voltage out-of-range")
          (fun t =>
            if cfg.voltMin ≤ v4 ∧ v4 ≤ cfg.voltMax then ⟨t, none⟩
            else warnCaught cfg t Dev.ads1015_2 "Sensor4 voltage out-of-range")
    | Read2.err m => handleFault cfg s Dev.ads1015_2 ("Read error: " ++ m)
  else ⟨s, none⟩

/-- The derived-altitude formula
`44330.0 * (1 - (p / 1013.25) ** 0.1903)`; `4053/4 = 1013.25`. -/
def altOf (cfg : Config) (p : ℚ) : ℚ :=
  44330 * (1 - cfg.rpow1903 (p / (4053 / 4)))

/-- The derived-altitude section of `update_all`: if a smoothed pressure
is available, compute the altitude, smooth it through its own filter
state, and range-check the raw derived altitude (this `_handle_warn`
call is not inside any `try` block). -/
def altBlock (cfg : Config) (s : SState) : Out :=
  match s.pressureSmooth with
  | none => ⟨s, none⟩
  | some p =>
      let alt := altOf cfg p
      let s1 := { s with altitudeSmooth := some (smooth cfg.sm s.altitudeSmooth alt) }
      if cfg.altMin ≤ alt ∧ alt ≤ cfg.altMax then ⟨s1, none⟩
      else handleWarn cfg s1 Dev.mprls "Derived altitude out-of-range"

/-- One iteration of the `_check_timeouts` loop: skip a never-updated
sensor, otherwise fault it when `now - last > timeout`. -/
def timeoutOne (cfg : Config) (now2 : ℚ) (s : SState) (d : Dev) : Out :=
  match s.lastOf d with
  | none => ⟨s, none⟩
  | some t =>
      if now2 - t > cfg.timeout then
        handleFault cfg s d "No update within timeout"
      else ⟨s, none⟩

/-- `_check_timeouts`: the staleness loop over
`("bno085", "mprls", "ads1015_1", "ads1015_2")`, in that order. -/
def checkTimeouts (cfg : Config) (now2 : ℚ) (s : SState) : Out :=
  stepOut (stepOut (stepOut (timeoutOne cfg now2 s Dev.bno085)
    (fun t => timeoutOne cfg now2 t Dev.mprls))
    (fun t => timeoutOne cfg now2 t Dev.ads1015_1))
    (fun t => timeoutOne cfg now2 t Dev.ads1015_2)

/-- The four per-device sections of `update_all`, in source order. -/
def readPhase (cfg : Config) (r : Reads) (now : ℚ) (s : SState) : Out :=
  stepOut (stepOut (stepOut (bnoBlock cfg r now s)
    (fun t => mprBlock cfg r now t))
    (fun t => ads1Block cfg r now t))
    (fun t => ads2Block cfg r now t)

/-- `update_all()`: device sections, derived altitude, then
`_check_timeouts` (`now` is the timestamp taken at entry, `now2` the one
taken inside `_check_timeouts`). -/
def updateAll (cfg : Config) (r : Reads) (now now2 : ℚ) (s : SState) : Out :=
  stepOut (stepOut (readPhase cfg r now s) (fun t => altBlock cfg t))
    (fun t => checkTimeouts cfg now2 t)

/-- Outcome of one driver attach attempt during construction. -/
inductive AttachRes
  | ok
  | err (msg : String)
deriving DecidableEq, Repr

/-- The attach outcomes offered to the constructor. -/
structure Attaches where
  i2c : AttachRes
  bno : AttachRes
  mpr : AttachRes
  ads1 : AttachRes
  ads2 : AttachRes
deriving DecidableEq, Repr

/-- The state built by `__init__` before any driver attach: no handles,
no smoothed values, `_last` all None except `_last["i2c"] = now`, every
status "UNKNOWN" with `last_update` None except the i2c record. -/
def initialState (t : ℚ) : SState :=
  { bnoLive := false, mprLive := false, ads1Live := false, ads2Live := false,
    pressureSmooth := none, altitudeSmooth := none,
    analog1 := none, analog2 := none, analog3 := none, analog4 := none,
    lastBno := none, lastMpr := none, lastAds1 := none, lastAds2 := none,
    lastI2c := some t,
    recBno := ⟨Status.unknown, none, none⟩,
    recMpr := ⟨Status.unknown, none, none⟩,
    recAds1 := ⟨Status.unknown, none, none⟩,
    recAds2 := ⟨Status.unknown, none, none⟩,
    recI2c := ⟨Status.unknown, some t, none⟩ }

/-- `_init_i2c`: on success status OK; on failure the `except` clause
first writes a FAULT record with a timestamp, then `_handle_fault`
overwrites it (and raises in `exception` mode). -/
def initI2c (cfg : Config) (a : Attaches) (t : ℚ) (s : SState) : Out :=
  match a.i2c with
  | AttachRes.ok => ⟨{ s with recI2c := ⟨Status.ok, some t, none⟩ }, none⟩
  | AttachRes.err m =>
      let s1 := { s with recI2c := ⟨Status.fault, some t, some m⟩ }
      handleFault cfg s1 Dev.i2c ("I2C initialization failed: " ++ m)

/-- `_init_bno085`: on success the handle is kept and status set OK; on
failure the handle is dropped, the record set to MISSING, and
`_handle_fault` is called (which overwrites the record with FAULT and
raises in `exception` mode). -/
def initBno (cfg : Config) (a : Attaches) (t : ℚ) (s : SState) : Out :=
  match a.bno with
  | AttachRes.ok => ⟨{ s with bnoLive := true, recBno := ⟨Status.ok, some t, none⟩ }, none⟩
  | AttachRes.err m =>
      let s1 := { s with bnoLive := false, recBno := ⟨Status.missing, none, some m⟩ }
      handleFault cfg s1 Dev.bno085 ("BNO085 init failed: " ++ m)

/-- `_init_mprls`: same shape as `_init_bno085`. -/
def initMpr (cfg : Config) (a : Attaches) (t : ℚ) (s : SState) : Out :=
  match a.mpr with
  | AttachRes.ok => ⟨{ s with mprLive := true, recMpr := ⟨Status.ok, some t, none⟩ }, none⟩
  | AttachRes.err m =>
      let s1 := { s with mprLive := false, recMpr := ⟨Status.missing, none, some m⟩ }
      handleFault cfg s1 Dev.mprls ("MPRLS init failed: " ++ m)

/-- First half of `_init_ads1015` (bank at 0x48). -/
def initAds1 (cfg : Config) (a : Attaches) (t : ℚ) (s : SState) : Out :=
  match a.ads1 with
  | AttachRes.ok => ⟨{ s with ads1Live := true, recAds1 := ⟨Status.ok, some t, none⟩ }, none⟩
  | AttachRes.err m =>
      let s1 := { s with ads1Live := false, recAds1 := ⟨Status.missing, none, some m⟩ }
      handleFault cfg s1 Dev.ads1015_1 ("ADS1015 #1 init failed: " ++ m)

/-- Second half of `_init_ads1015` (bank at 0x49). -/
def initAds2 (cfg : Config) (a : Attaches) (t : ℚ) (s : SState) : Out :=
  match a.ads2 with
  | AttachRes.ok => ⟨{ s with ads2Live := true, recAds2 := ⟨Status.ok, some t, none⟩ }, none⟩
  | AttachRes.err m =>
      let s1 := { s with ads2Live := false, recAds2 := ⟨Status.missing, none, some m⟩ }
      handleFault cfg s1 Dev.ads1015_2 ("ADS1015 #2 init failed: " ++ m)

/-- `__init__`: run the four init steps inside a `try`; any
`SensorFault` escaping them (possible only in `exception` mode) is
caught and re-escalated as `_handle_fault("i2c", f"I2C init error: {e}")`,
whose own raise (again only in `exception` mode) leaves the constructor. -/
def construct (cfg : Config) (a : Attaches) (t : ℚ) : Out :=
  let o := stepOut (stepOut (stepOut (stepOut (initI2c cfg a t (initialState t))
    (fun s => initBno cfg a t s))
    (fun s => initMpr cfg a t s))
    (fun s => initAds1 cfg a t s))
    (fun s => initAds2 cfg a t s)
  match o.fault with
  | none => o
  | some m => handleFault cfg o.state Dev.i2c ("I2C init error: " ++ m)

/-- The constant `0.0295299830714` (inHg per hPa). -/
def inhgPerHpa : ℚ := 295299830714 / 10 ^ 13

/-- `hpa_to_inhg`. -/
def hpa_to_inhg (x : ℚ) : ℚ := x * inhgPerHpa

/-- `inhg_to_hpa`. -/
def inhg_to_hpa (x : ℚ) : ℚ := x / inhgPerHpa

/-- The constant `3.28084` (feet per meter). -/
def ftPerM : ℚ := 328084 / 100000

/-- `m_to_ft`. -/
def m_to_ft (x : ℚ) : ℚ := x * ftPerM

/-- `ft_to_m`. -/
def ft_to_m (x : ℚ) : ℚ := x / ftPerM

/-- `volts_to_percent`. -/
def volts_to_percent (v vref : ℚ) : ℚ := v / vref * 100

/-! ### Concrete fixtures (source-default configuration and small states) -/

/-- The source's default configuration (`smoothing_factor=0.2`,
`pressure_range_hpa=(800,1100)`, `altitude_range_m=(-300,6000)`,
`voltage_range_v=(0,5.2)`, `sensor_timeout_s=2`) in silent fault mode,
with the abstract power instantiated by the constant-one function. -/
def cfgSilent : Config :=
  { sm := 1 / 5, faultMode := FaultMode.silent, pressureMin := 800, pressureMax := 1100,
    altMin := -300, altMax := 6000, voltMin := 0, voltMax := 26 / 5, timeout := 2,
    rpow1903 := fun _ => 1 }

/-- The default configuration in warn fault mode. -/
def cfgWarnMode : Config := { cfgSilent with faultMode := FaultMode.warn }

/-- The default configuration in exception fault mode. -/
def cfgExcMode : Config := { cfgSilent with faultMode := FaultMode.exception }

/-- A monitor state with no live drivers and everything unset. -/
def sBase : SState :=
  { bnoLive := false, mprLive := false, ads1Live := false, ads2Live := false,
    pressureSmooth := none, altitudeSmooth := none,
    analog1 := none, analog2 := none, analog3 := none, analog4 := none,
    lastBno := none, lastMpr := none, lastAds1 := none, lastAds2 := none, lastI2c := none,
    recBno := ⟨Status.unknown, none, none⟩,
    recMpr := ⟨Status.unknown, none, none⟩,
    recAds1 := ⟨Status.unknown, none, none⟩,
    recAds2 := ⟨Status.unknown, none, none⟩,
    recI2c := ⟨Status.unknown, none, none⟩ }

/-- Reads in which the pressure sensor raises and everything else succeeds. -/
def rMprErr : Reads := ⟨Read0.ok, Read1.err "boom", Read2.ok 1 1, Read2.ok 1 1⟩

/-- A state with a live pressure sensor whose record holds a successful
read at time 5. -/
def sC1 : SState :=
  { sBase with mprLive := true, lastMpr := some 5, recMpr := ⟨Status.ok, some 5, none⟩ }

/-- Attach outcomes in which only the MPRLS driver fails to attach. -/
def attMprFail : Attaches :=
  ⟨AttachRes.ok, AttachRes.ok, AttachRes.err "no device", AttachRes.ok, AttachRes.ok⟩

/-- Attach outcomes in which only the BNO085 driver fails to attach. -/
def attBnoFail : Attaches :=
  ⟨AttachRes.ok, AttachRes.err "no device", AttachRes.ok, AttachRes.ok, AttachRes.ok⟩

/-- A state with a live pressure sensor and an existing smoothed pressure
of 1000 hPa. -/
def sC3 : SState := { sBase with mprLive := true, pressureSmooth := some 1000 }

/-- Reads with a raw pressure sample of 1150 hPa (outside (800, 1100))
and in-range voltages. -/
def rC3 : Reads := ⟨Read0.ok, Read1.ok 1150, Read2.ok 1 1, Read2.ok 1 1⟩

/-- Reads in which every device succeeds with nominal values. -/
def readsIdle : Reads := ⟨Read0.ok, Read1.ok 1000, Read2.ok 1 1, Read2.ok 1 1⟩

/-- A state whose orientation driver is dead but whose record still holds
a successful read at time 0. -/
def sC4 : SState :=
  { sBase with lastBno := some 0, recBno := ⟨Status.ok, some 0, none⟩ }

/-- A state with only the pressure driver live. -/
def sMprLive : SState := { sBase with mprLive := true }

/-- A state with the pressure driver and the first analog bank live. -/
def sMprAds1Live : SState := { sBase with mprLive := true, ads1Live := true }

/-- A fresh, untouched device record. -/
def uRec : DRec := ⟨Status.unknown, none, none⟩

/-- State for the range-check scenario: pressure and analog bank one
live, previous smoothed pressure 1000 hPa. -/
def sC3w : SState :=
  ⟨false, true, true, false, some 1000, none, none, none, none, none,
    none, none, none, none, none, uRec, uRec, uRec, uRec, uRec⟩

/-- Reads for the range-check scenario: raw pressure 1150 hPa
(out of (800, 1100)), channel-one voltage 5.5 V (out of (0, 5.2)),
channel-two voltage 1 V. -/
def rC3w : Reads := ⟨Read0.ok, Read1.ok 1150, Read2.ok (11 / 2) 1, Read2.ok 1 1⟩

/-- State for the exception-mode scenario: pressure sensor and analog
bank one live, nothing else. -/
def sC5w : SState :=
  ⟨false, true, true, false, none, none, none, none, none, none,
    none, none, none, none, none, uRec, uRec, uRec, uRec, uRec⟩

/-- Reads for the exception-mode scenario: the pressure read raises,
both analog banks would succeed. -/
def rC5w : Reads := ⟨Read0.ok, Read1.err "boom", Read2.ok 1 1, Read2.ok 1 1⟩

/-- Reads for the silent-mode scenario: the pressure read raises, bank
one succeeds with in-range voltages. -/
def rC6w : Reads := ⟨Read0.ok, Read1.err "boom", Read2.ok 1 2, Read2.ok 1 1⟩

/-! ### Sequencing and state-update lemmas -/

theorem stepOut_none (o : Out) (f : SState → Out) (h : o.fault = none) :
    stepOut o f = f o.state := by
  cases o with
  | mk s fl => cases fl with
    | none => rfl
    | some m => simp at h

theorem stepOut_fault_none (o : Out) (f : SState → Out) (h1 : o.fault = none)
    (h2 : ∀ t, (f t).fault = none) : (stepOut o f).fault = none := by
  rw [stepOut_none o f h1]
  exact h2 o.state

theorem stepOut_state_pred (P : SState → Prop) (o : Out) (f : SState → Out)
    (h1 : P o.state) (h2 : ∀ t, P t → P (f t).state) : P (stepOut o f).state := by
  cases o with
  | mk s fl => cases fl with
    | none => exact h2 s h1
    | some m => exact h1

@[simp] theorem setRec_bnoLive (s : SState) (d : Dev) (r : DRec) :
    (s.setRec d r).bnoLive = s.bnoLive := by cases d <;> rfl

@[simp] theorem setRec_mprLive (s : SState) (d : Dev) (r : DRec) :
    (s.setRec d r).mprLive = s.mprLive := by cases d <;> rfl

@[simp] theorem setRec_ads1Live (s : SState) (d : Dev) (r : DRec) :
    (s.setRec d r).ads1Live = s.ads1Live := by cases d <;> rfl

@[simp] theorem setRec_ads2Live (s : SState) (d : Dev) (r : DRec) :
    (s.setRec d r).ads2Live = s.ads2Live := by cases d <;> rfl

@[simp] theorem setRec_pressureSmooth (s : SState) (d : Dev) (r : DRec) :
    (s.setRec d r).pressureSmooth = s.pressureSmooth := by cases d <;> rfl

@[simp] theorem setRec_altitudeSmooth (s : SState) (d : Dev) (r : DRec) :
    (s.setRec d r).altitudeSmooth = s.altitudeSmooth := by cases d <;> rfl

@[simp] theorem setRec_analog1 (s : SState) (d : Dev) (r : DRec) :
    (s.setRec d r).analog1 = s.analog1 := by cases d <;> rfl

@[simp] theorem setRec_analog2 (s : SState) (d : Dev) (r : DRec) :
    (s.setRec d r).analog2 = s.analog2 := by cases d <;> rfl

@[simp] theorem setRec_analog3 (s : SState) (d : Dev) (r : DRec) :
    (s.setRec d r).analog3 = s.analog3 := by cases d <;> rfl

@[simp] theorem setRec_analog4 (s : SState) (d : Dev) (r : DRec) :
    (s.setRec d r).analog4 = s.analog4 := by cases d <;> rfl

@[simp] theorem setRec_lastOf (s : SState) (d : Dev) (r : DRec) (e : Dev) :
    (s.setRec d r).lastOf e = s.lastOf e := by cases d <;> cases e <;> rfl

@[simp] theorem setRec_liveOf (s : SState) (d : Dev) (r : DRec) (e : Dev) :
    (s.setRec d r).liveOf e = s.liveOf e := by cases d <;> cases e <;> rfl

@[simp] theorem setRec_recOf_self (s : SState) (d : Dev) (r : DRec) :
    (s.setRec d r).recOf d = r := by cases d <;> rfl

theorem setRec_recOf_ne (s : SState) (d : Dev) (r : DRec) (e : Dev) (h : e ≠ d) :
    (s.setRec d r).recOf e = s.recOf e := by
  cases d <;> cases e <;> (try rfl) <;> exact absurd rfl h

@[simp] theorem handleFault_state (cfg : Config) (s : SState) (d : Dev) (m : String) :
    (handleFault cfg s d m).state = s.setRec d ⟨Status.fault, none, some m⟩ := rfl

@[simp] theorem handleWarn_state (cfg : Config) (s : SState) (d : Dev) (m : String) :
    (handleWarn cfg s d m).state =
      s.setRec d ⟨Status.warn, (s.recOf d).lastUpdate, some m⟩ := rfl

theorem handleFault_fault_none (cfg : Config) (s : SState) (d : Dev) (m : String)
    (h : cfg.faultMode ≠ FaultMode.exception) : (handleFault cfg s d m).fault = none := by
  simp [handleFault, h]

theorem handleWarn_fault_none (cfg : Config) (s : SState) (d : Dev) (m : String)
    (h : cfg.faultMode ≠ FaultMode.exception) : (handleWarn cfg s d m).fault = none := by
  simp [handleWarn, h]

theorem warnCaught_eq_of_ne (cfg : Config) (s : SState) (d : Dev) (m : String)
    (h : cfg.faultMode ≠ FaultMode.exception) :
    warnCaught cfg s d m =
      ⟨s.setRec d ⟨Status.warn, (s.recOf d).lastUpdate, some m⟩, none⟩ := by
  simp [warnCaught, h]

theorem warnCaught_fault_none (cfg : Config) (s : SState) (d : Dev) (m : String)
    (h : cfg.faultMode ≠ FaultMode.exception) : (warnCaught cfg s d m).fault = none := by
  rw [warnCaught_eq_of_ne cfg s d m h]

/-! ### Per-block lemmas: no fault raised outside `exception` mode -/

theorem bnoBlock_fault_none (cfg : Config) (r : Reads) (now : ℚ) (s : SState)
    (h : cfg.faultMode ≠ FaultMode.exception) : (bnoBlock cfg r now s).fault = none := by
  unfold bnoBlock
  repeat' split
  all_goals simp [handleFault, h]

theorem mprBlock_fault_none (cfg : Config) (r : Reads) (now : ℚ) (s : SState)
    (h : cfg.faultMode ≠ FaultMode.exception) : (mprBlock cfg r now s).fault = none := by
  unfold mprBlock
  repeat' split
  all_goals simp [handleFault, warnCaught, h]

theorem ads1Block_fault_none (cfg : Config) (r : Reads) (now : ℚ) (s : SState)
    (h : cfg.faultMode ≠ FaultMode.exception) : (ads1Block cfg r now s).fault = none := by
  unfold ads1Block
  split
  · split
    · refine stepOut_fault_none _ _ ?_ ?_
      · split
        · rfl
        · exact warnCaught_fault_none _ _ _ _ h
      · intro t
        split
        · rfl
        · exact warnCaught_fault_none _ _ _ _ h
    · exact handleFault_fault_none _ _ _ _ h
  · rfl

theorem ads2Block_fault_none (cfg : Config) (r : Reads) (now : ℚ) (s : SState)
    (h : cfg.faultMode ≠ FaultMode.exception) : (ads2Block cfg r now s).fault = none := by
  unfold ads2Block
  split
  · split
    · refine stepOut_fault_none _ _ ?_ ?_
      · split
        · rfl
        · exact warnCaught_fault_none _ _ _ _ h
      · intro t
        split
        · rfl
        · exact warnCaught_fault_none _ _ _ _ h
    · exact handleFault_fault_none _ _ _ _ h
  · rfl

theorem altBlock_fault_none (cfg : Config) (s : SState)
    (h : cfg.faultMode ≠ FaultMode.exception) : (altBlock cfg s).fault = none := by
  unfold altBlock
  split
  · rfl
  · dsimp only
    split
    · rfl
    · exact handleWarn_fault_none _ _ _ _ h

theorem timeoutOne_fault_none (cfg : Config) (now2 : ℚ) (s : SState) (d : Dev)
    (h : cfg.faultMode ≠ FaultMode.exception) : (timeoutOne cfg now2 s d).fault = none := by
  unfold timeoutOne
  repeat' split
  all_goals simp [handleFault, h]

theorem checkTimeouts_fault_none (cfg : Config) (now2 : ℚ) (s : SState)
    (h : cfg.faultMode ≠ FaultMode.exception) : (checkTimeouts cfg now2 s).fault = none := by
  unfold checkTimeouts
  refine stepOut_fault_none _ _ (stepOut_fault_none _ _ (stepOut_fault_none _ _ ?_ ?_) ?_) ?_
  · exact timeoutOne_fault_none _ _ _ _ h
  all_goals exact fun t => timeoutOne_fault_none _ _ _ _ h

theorem readPhase_fault_none (cfg : Config) (r : Reads) (now : ℚ) (s : SState)
    (h : cfg.faultMode ≠ FaultMode.exception) : (readPhase cfg r now s).fault = none := by
  unfold readPhase
  refine stepOut_fault_none _ _ (stepOut_fault_none _ _ (stepOut_fault_none _ _ ?_ ?_) ?_) ?_
  · exact bnoBlock_fault_none _ _ _ _ h
  · exact fun t => mprBlock_fault_none _ _ _ _ h
  · exact fun t => ads1Block_fault_none _ _ _ _ h
  · exact fun t => ads2Block_fault_none _ _ _ _ h

theorem updateAll_fault_none (cfg : Config) (r : Reads) (now now2 : ℚ) (s : SState)
    (h : cfg.faultMode ≠ FaultMode.exception) : (updateAll cfg r now now2 s).fault = none := by
  unfold updateAll
  refine stepOut_fault_none _ _ (stepOut_fault_none _ _ ?_ ?_) ?_
  · exact readPhase_fault_none _ _ _ _ h
  · exact fun t => altBlock_fault_none _ _ h
  · exact fun t => checkTimeouts_fault_none _ _ _ h

/-! ### Projection lemmas for the caught-warning helper -/

@[simp] theorem warnCaught_liveOf (cfg : Config) (s : SState) (d : Dev) (m : String) (e : Dev) :
    (warnCaught cfg s d m).state.liveOf e = s.liveOf e := by
  unfold warnCaught
  split <;> simp

@[simp] theorem warnCaught_lastOf (cfg : Config) (s : SState) (d : Dev) (m : String) (e : Dev) :
    (warnCaught cfg s d m).state.lastOf e = s.lastOf e := by
  unfold warnCaught
  split <;> simp

@[simp] theorem warnCaught_pressureSmooth (cfg : Config) (s : SState) (d : Dev) (m : String) :
    (warnCaught cfg s d m).state.pressureSmooth = s.pressureSmooth := by
  unfold warnCaught
  split <;> simp

@[simp] theorem warnCaught_altitudeSmooth (cfg : Config) (s : SState) (d : Dev) (m : String) :
    (warnCaught cfg s d m).state.altitudeSmooth = s.altitudeSmooth := by
  unfold warnCaught
  split <;> simp

@[simp] theorem warnCaught_analog1 (cfg : Config) (s : SState) (d : Dev) (m : String) :
    (warnCaught cfg s d m).state.analog1 = s.analog1 := by
  unfold warnCaught
  split <;> simp

@[simp] theorem warnCaught_analog2 (cfg : Config) (s : SState) (d : Dev) (m : String) :
    (warnCaught cfg s d m).state.analog2 = s.analog2 := by
  unfold warnCaught
  split <;> simp

/-! ### Per-block preservation lemmas -/

theorem bnoBlock_liveOf (cfg : Config) (r : Reads) (now : ℚ) (s : SState) (e : Dev) :
    (bnoBlock cfg r now s).state.liveOf e = s.liveOf e := by
  unfold bnoBlock
  repeat' split
  all_goals cases e <;> rfl

theorem bnoBlock_lastOf (cfg : Config) (r : Reads) (now : ℚ) (s : SState) (e : Dev)
    (he : e ≠ Dev.bno085) : (bnoBlock cfg r now s).state.lastOf e = s.lastOf e := by
  unfold bnoBlock
  repeat' split
  all_goals cases e <;> first | rfl | exact absurd rfl he

theorem bnoBlock_skip (cfg : Config) (r : Reads) (now : ℚ) (s : SState)
    (hl : s.bnoLive = false) : bnoBlock cfg r now s = ⟨s, none⟩ := by
  unfold bnoBlock
  simp [hl]

theorem mprBlock_liveOf (cfg : Config) (r : Reads) (now : ℚ) (s : SState) (e : Dev) :
    (mprBlock cfg r now s).state.liveOf e = s.liveOf e := by
  unfold mprBlock
  repeat' split
  all_goals simp
  all_goals cases e <;> rfl

theorem mprBlock_lastOf (cfg : Config) (r : Reads) (now : ℚ) (s : SState) (e : Dev)
    (he : e ≠ Dev.mprls) : (mprBlock cfg r now s).state.lastOf e = s.lastOf e := by
  unfold mprBlock
  repeat' split
  all_goals simp
  all_goals cases e <;> first | rfl | exact absurd rfl he

theorem mprBlock_skip (cfg : Config) (r : Reads) (now : ℚ) (s : SState)
    (hl : s.mprLive = false) : mprBlock cfg r now s = ⟨s, none⟩ := by
  unfold mprBlock
  simp [hl]

theorem ads1Block_liveOf (cfg : Config) (r : Reads) (now : ℚ) (s : SState) (e : Dev) :
    (ads1Block cfg r now s).state.liveOf e = s.liveOf e := by
  unfold ads1Block
  split
  · split
    · apply stepOut_state_pred (fun t => t.liveOf e = s.liveOf e)
      · split <;> simp <;> cases e <;> rfl
      · intro t ht
        split <;> simp [ht]
    · simp
  · rfl

theorem ads1Block_lastOf (cfg : Config) (r : Reads) (now : ℚ) (s : SState) (e : Dev)
    (he : e ≠ Dev.ads1015_1) : (ads1Block cfg r now s).state.lastOf e = s.lastOf e := by
  unfold ads1Block
  split
  · split
    · apply stepOut_state_pred (fun t => t.lastOf e = s.lastOf e)
      · split <;> simp <;> cases e <;> first | rfl | exact absurd rfl he
      · intro t ht
        split <;> simp [ht]
    · simp
  · rfl

theorem ads1Block_skip (cfg : Config) (r : Reads) (now : ℚ) (s : SState)
    (hl : s.ads1Live = false) : ads1Block cfg r now s = ⟨s, none⟩ := by
  unfold ads1Block
  simp [hl]

theorem ads2Block_liveOf (cfg : Config) (r : Reads) (now : ℚ) (s : SState) (e : Dev) :
    (ads2Block cfg r now s).state.liveOf e = s.liveOf e := by
  unfold ads2Block
  split
  · split
    · apply stepOut_state_pred (fun t => t.liveOf e = s.liveOf e)
      · split <;> simp <;> cases e <;> rfl
      · intro t ht
        split <;> simp [ht]
    · simp
  · rfl

theorem ads2Block_lastOf (cfg : Config) (r : Reads) (now : ℚ) (s : SState) (e : Dev)
    (he : e ≠ Dev.ads1015_2) : (ads2Block cfg r now s).state.lastOf e = s.lastOf e := by
  unfold ads2Block
  split
  · split
    · apply stepOut_state_pred (fun t => t.lastOf e = s.lastOf e)
      · split <;> simp <;> cases e <;> first | rfl | exact absurd rfl he
      · intro t ht
        split <;> simp [ht]
    · simp
  · rfl

theorem ads2Block_skip (cfg : Config) (r : Reads) (now : ℚ) (s : SState)
    (hl : s.ads2Live = false) : ads2Block cfg r now s = ⟨s, none⟩ := by
  unfold ads2Block
  simp [hl]

theorem altBlock_lastOf (cfg : Config) (s : SState) (e : Dev) :
    (altBlock cfg s).state.lastOf e = s.lastOf e := by
  unfold altBlock
  split
  · rfl
  · dsimp only
    split
    · cases e <;> rfl
    · simp
      cases e <;> rfl

theorem altBlock_smooth (cfg : Config) (s : SState) (p : ℚ) (hps : s.pressureSmooth = some p) :
    (altBlock cfg s).state.altitudeSmooth =
        some (smooth cfg.sm s.altitudeSmooth (altOf cfg p)) ∧
      (altBlock cfg s).state.pressureSmooth = some p := by
  unfold altBlock
  rw [hps]
  dsimp only
  split <;> simp [hps]

/-! ### Staleness-loop lemmas -/

theorem timeoutOne_lastOf (cfg : Config) (now2 : ℚ) (s : SState) (d e : Dev) :
    (timeoutOne cfg now2 s d).state.lastOf e = s.lastOf e := by
  unfold timeoutOne
  repeat' split
  all_goals simp

theorem timeoutOne_pressureSmooth (cfg : Config) (now2 : ℚ) (s : SState) (d : Dev) :
    (timeoutOne cfg now2 s d).state.pressureSmooth = s.pressureSmooth := by
  unfold timeoutOne
  repeat' split
  all_goals simp

theorem timeoutOne_altitudeSmooth (cfg : Config) (now2 : ℚ) (s : SState) (d : Dev) :
    (timeoutOne cfg now2 s d).state.altitudeSmooth = s.altitudeSmooth := by
  unfold timeoutOne
  repeat' split
  all_goals simp

theorem timeoutOne_recOf_ne (cfg : Config) (now2 : ℚ) (s : SState) (d e : Dev)
    (he : e ≠ d) : (timeoutOne cfg now2 s d).state.recOf e = s.recOf e := by
  unfold timeoutOne
  repeat' split
  all_goals simp [setRec_recOf_ne _ _ _ _ he]

theorem timeoutOne_stale (cfg : Config) (now2 τ : ℚ) (s : SState) (d : Dev)
    (hlast : s.lastOf d = some τ) (hstale : now2 - τ > cfg.timeout) :
    (timeoutOne cfg now2 s d).state.recOf d =
      ⟨Status.fault, none, some "No update within timeout"⟩ := by
  unfold timeoutOne
  rw [hlast]
  dsimp only
  rw [if_pos hstale]
  simp

theorem timeoutOne_not_stale (cfg : Config) (now2 τ : ℚ) (s : SState) (d : Dev)
    (hlast : s.lastOf d = some τ) (hok : ¬ now2 - τ > cfg.timeout) :
    timeoutOne cfg now2 s d = ⟨s, none⟩ := by
  unfold timeoutOne
  rw [hlast]
  dsimp only
  rw [if_neg hok]

theorem checkTimeouts_pressureSmooth (cfg : Config) (now2 : ℚ) (s : SState) :
    (checkTimeouts cfg now2 s).state.pressureSmooth = s.pressureSmooth := by
  unfold checkTimeouts
  apply stepOut_state_pred (fun t => t.pressureSmooth = s.pressureSmooth)
  · apply stepOut_state_pred (fun t => t.pressureSmooth = s.pressureSmooth)
    · apply stepOut_state_pred (fun t => t.pressureSmooth = s.pressureSmooth)
      · rw [timeoutOne_pressureSmooth]
      · intro t ht
        rw [timeoutOne_pressureSmooth, ht]
    · intro t ht
      rw [timeoutOne_pressureSmooth, ht]
  · intro t ht
    rw [timeoutOne_pressureSmooth, ht]

theorem checkTimeouts_altitudeSmooth (cfg : Config) (now2 : ℚ) (s : SState) :
    (checkTimeouts cfg now2 s).state.altitudeSmooth = s.altitudeSmooth := by
  unfold checkTimeouts
  apply stepOut_state_pred (fun t => t.altitudeSmooth = s.altitudeSmooth)
  · apply stepOut_state_pred (fun t => t.altitudeSmooth = s.altitudeSmooth)
    · apply stepOut_state_pred (fun t => t.altitudeSmooth = s.altitudeSmooth)
      · rw [timeoutOne_altitudeSmooth]
      · intro t ht
        rw [timeoutOne_altitudeSmooth, ht]
    · intro t ht
      rw [timeoutOne_altitudeSmooth, ht]
  · intro t ht
    rw [timeoutOne_altitudeSmooth, ht]

/-! ### Normal forms of the cycle outside `exception` mode -/

theorem readPhase_eq (cfg : Config) (r : Reads) (now : ℚ) (s : SState)
    (h : cfg.faultMode ≠ FaultMode.exception) :
    readPhase cfg r now s =
      ads2Block cfg r now (ads1Block cfg r now (mprBlock cfg r now
        (bnoBlock cfg r now s).state).state).state := by
  unfold readPhase
  rw [stepOut_none _ _ (bnoBlock_fault_none _ _ _ _ h),
      stepOut_none _ _ (mprBlock_fault_none _ _ _ _ h),
      stepOut_none _ _ (ads1Block_fault_none _ _ _ _ h)]

theorem checkTimeouts_eq (cfg : Config) (now2 : ℚ) (s : SState)
    (h : cfg.faultMode ≠ FaultMode.exception) :
    checkTimeouts cfg now2 s =
      timeoutOne cfg now2 (timeoutOne cfg now2 (timeoutOne cfg now2
        (timeoutOne cfg now2 s Dev.bno085).state Dev.mprls).state
        Dev.ads1015_1).state Dev.ads1015_2 := by
  unfold checkTimeouts
  rw [stepOut_none _ _ (timeoutOne_fault_none _ _ _ _ h),
      stepOut_none _ _ (timeoutOne_fault_none _ _ _ _ h),
      stepOut_none _ _ (timeoutOne_fault_none _ _ _ _ h)]

theorem updateAll_eq (cfg : Config) (r : Reads) (now now2 : ℚ) (s : SState)
    (h : cfg.faultMode ≠ FaultMode.exception) :
    updateAll cfg r now now2 s =
      checkTimeouts cfg now2 (altBlock cfg (readPhase cfg r now s).state).state := by
  unfold updateAll
  rw [stepOut_none _ _ (readPhase_fault_none _ _ _ _ h),
      stepOut_none _ _ (altBlock_fault_none _ _ h)]

/-! ### Routing lemmas for the staleness property -/

theorem readPhase_lastOf_not_live (cfg : Config) (r : Reads) (now : ℚ) (s : SState) (d : Dev)
    (h : cfg.faultMode ≠ FaultMode.exception) (hlive : s.liveOf d = false) :
    (readPhase cfg r now s).state.lastOf d = s.lastOf d := by
  rw [readPhase_eq cfg r now s h]
  cases d with
  | bno085 =>
      rw [ads2Block_lastOf _ _ _ _ _ (by decide), ads1Block_lastOf _ _ _ _ _ (by decide),
          mprBlock_lastOf _ _ _ _ _ (by decide), bnoBlock_skip _ _ _ _ hlive]
  | mprls =>
      rw [ads2Block_lastOf _ _ _ _ _ (by decide), ads1Block_lastOf _ _ _ _ _ (by decide)]
      have hl : (bnoBlock cfg r now s).state.mprLive = false := by
        have := bnoBlock_liveOf cfg r now s Dev.mprls
        simpa [SState.liveOf] using this.trans hlive
      rw [mprBlock_skip _ _ _ _ hl, bnoBlock_lastOf _ _ _ _ _ (by decide)]
  | ads1015_1 =>
      rw [ads2Block_lastOf _ _ _ _ _ (by decide)]
      have hl : (mprBlock cfg r now (bnoBlock cfg r now s).state).state.ads1Live = false := by
        have h1 := mprBlock_liveOf cfg r now (bnoBlock cfg r now s).state Dev.ads1015_1
        have h2 := bnoBlock_liveOf cfg r now s Dev.ads1015_1
        simpa [SState.liveOf] using (h1.trans h2).trans hlive
      rw [ads1Block_skip _ _ _ _ hl, mprBlock_lastOf _ _ _ _ _ (by decide),
          bnoBlock_lastOf _ _ _ _ _ (by decide)]
  | ads1015_2 =>
      have hl : (ads1Block cfg r now (mprBlock cfg r now
          (bnoBlock cfg r now s).state).state).state.ads2Live = false := by
        have h1 := ads1Block_liveOf cfg r now (mprBlock cfg r now
          (bnoBlock cfg r now s).state).state Dev.ads1015_2
        have h2 := mprBlock_liveOf cfg r now (bnoBlock cfg r now s).state Dev.ads1015_2
        have h3 := bnoBlock_liveOf cfg r now s Dev.ads1015_2
        simpa [SState.liveOf] using ((h1.trans h2).trans h3).trans hlive
      rw [ads2Block_skip _ _ _ _ hl, ads1Block_lastOf _ _ _ _ _ (by decide),
          mprBlock_lastOf _ _ _ _ _ (by decide), bnoBlock_lastOf _ _ _ _ _ (by decide)]
  | i2c => simp [SState.liveOf] at hlive

theorem checkTimeouts_stale (cfg : Config) (now2 τ : ℚ) (s : SState) (d : Dev)
    (hmode : cfg.faultMode ≠ FaultMode.exception) (hd : d ≠ Dev.i2c)
    (hlast : s.lastOf d = some τ) (hstale : now2 - τ > cfg.timeout) :
    (checkTimeouts cfg now2 s).state.recOf d =
      ⟨Status.fault, none, some "No update within timeout"⟩ := by
  rw [checkTimeouts_eq _ _ _ hmode]
  cases d with
  | bno085 =>
      rw [timeoutOne_recOf_ne _ _ _ _ _ (by decide), timeoutOne_recOf_ne _ _ _ _ _ (by decide),
          timeoutOne_recOf_ne _ _ _ _ _ (by decide)]
      exact timeoutOne_stale _ _ τ _ _ hlast hstale
  | mprls =>
      rw [timeoutOne_recOf_ne _ _ _ _ _ (by decide), timeoutOne_recOf_ne _ _ _ _ _ (by decide)]
      refine timeoutOne_stale _ _ τ _ _ ?_ hstale
      rw [timeoutOne_lastOf]
      exact hlast
  | ads1015_1 =>
      rw [timeoutOne_recOf_ne _ _ _ _ _ (by decide)]
      refine timeoutOne_stale _ _ τ _ _ ?_ hstale
      rw [timeoutOne_lastOf, timeoutOne_lastOf]
      exact hlast
  | ads1015_2 =>
      refine timeoutOne_stale _ _ τ _ _ ?_ hstale
      rw [timeoutOne_lastOf, timeoutOne_lastOf, timeoutOne_lastOf]
      exact hlast
  | i2c => exact absurd rfl hd

/-! ## Claim theorems -/

/-- C1 counterexample: in a poll cycle whose pressure read raises, the
device record's `last_update` goes from `some 5` to `none` — the Fault
transition clears the field, contradicting the claim that no Warn or
Fault transition clears `last_update`. -/
theorem fault_clears_lastUpdate_cx :
    sC1.recMpr.lastUpdate = some 5 ∧
      ((updateAll cfgSilent rMprErr 6 6 sC1).state.recOf Dev.mprls).status = Status.fault ∧
      ((updateAll cfgSilent rMprErr 6 6 sC1).state.recOf Dev.mprls).lastUpdate = none := by
  with_unfolding_all decide

/-- C1 (amended): a Warn transition leaves the record's `last_update`
unchanged, but a Fault transition clears it to `None`; neither handler
touches the separate staleness timestamps `_last`, from which staleness
is actually computed. -/
theorem warn_keeps_fault_clears_lastUpdate (cfg : Config) (s : SState) (d : Dev) (m : String) :
    ((handleWarn cfg s d m).state.recOf d).lastUpdate = (s.recOf d).lastUpdate ∧
      ((handleFault cfg s d m).state.recOf d).lastUpdate = none ∧
      (∀ e, (handleFault cfg s d m).state.lastOf e = s.lastOf e) ∧
      (∀ e, (handleWarn cfg s d m).state.lastOf e = s.lastOf e) :=
  ⟨by simp, by simp, fun e => by simp, fun e => by simp⟩

/-- C2: with fault mode `warn`, an MPRLS attach failure leaves the
device record with status FAULT once construction completes — the
MISSING status written by `_init_mprls` is immediately overwritten by
the `_handle_fault` call that follows it — while the dead driver handle
means no runtime read path ever touches the device again. -/
theorem attach_failure_ends_fault_not_missing :
    ((construct cfgWarnMode attMprFail 0).state.recOf Dev.mprls).status = Status.fault ∧
      ((construct cfgWarnMode attMprFail 0).state.recOf Dev.mprls).status ≠ Status.missing ∧
      (construct cfgWarnMode attMprFail 0).fault = none ∧
      (construct cfgWarnMode attMprFail 0).state.mprLive = false := by
  with_unfolding_all decide

/-- C4: outside exception mode, any polled device whose staleness
timestamp is non-null and older than the configured timeout ends the
poll cycle with status Fault, even when its driver is dead so that no
read was attempted for it in the cycle. -/
theorem stale_device_faulted_at_cycle_end (cfg : Config) (r : Reads) (now now2 τ : ℚ)
    (s : SState) (d : Dev)
    (hmode : cfg.faultMode ≠ FaultMode.exception) (hd : d ≠ Dev.i2c)
    (hlive : s.liveOf d = false) (hlast : s.lastOf d = some τ)
    (hstale : now2 - τ > cfg.timeout) :
    ((updateAll cfg r now now2 s).state.recOf d).status = Status.fault := by
  have hl2 : (altBlock cfg (readPhase cfg r now s).state).state.lastOf d = some τ := by
    rw [altBlock_lastOf, readPhase_lastOf_not_live _ _ _ _ _ hmode hlive]
    exact hlast
  rw [updateAll_eq _ _ _ _ _ hmode,
      checkTimeouts_stale cfg now2 τ _ d hmode hd hl2 hstale]

set_option maxRecDepth 100000 in
/-- Witness for C4 at a concrete stale orientation sensor. -/
theorem stale_device_faulted_witness :
    (cfgSilent.faultMode ≠ FaultMode.exception ∧ sC4.liveOf Dev.bno085 = false ∧
        sC4.lastOf Dev.bno085 = some 0 ∧ (10 : ℚ) - 0 > cfgSilent.timeout) ∧
      ((updateAll cfgSilent readsIdle 10 10 sC4).state.recOf Dev.bno085).status = Status.fault :=
  ⟨by with_unfolding_all decide,
    stale_device_faulted_at_cycle_end cfgSilent readsIdle 10 10 0 sC4 Dev.bno085
      (by decide) (by decide) (by decide) (by with_unfolding_all decide)
      (by with_unfolding_all decide)⟩

/-- C7: the smoothing filter returns the sample unchanged when no
previous value exists, and `alpha * sample + (1 - alpha) * previous`
otherwise. -/
theorem smooth_contract (alpha x p : ℚ) (hα : 0 < alpha ∧ alpha ≤ 1) :
    smooth alpha none x = x ∧ smooth alpha (some p) x = alpha * x + (1 - alpha) * p :=
  ⟨rfl, rfl⟩

/-- Witness for C7 at alpha = 1/2. -/
theorem smooth_contract_witness :
    (0 < (1 / 2 : ℚ) ∧ (1 / 2 : ℚ) ≤ 1) ∧
      (smooth (1 / 2) none 3 = 3 ∧
        smooth (1 / 2) (some 1) 3 = 1 / 2 * 3 + (1 - 1 / 2) * 1) :=
  ⟨by norm_num, smooth_contract (1 / 2) 3 1 (by norm_num)⟩

/-- C8: whenever the read phase leaves a smoothed pressure available,
the cycle computes the derived altitude
`altOf cfg p = 44330 * (1 - rpow1903 (p / 1013.25))` (the fractional
float power `** 0.1903` abstracted as `cfg.rpow1903`), feeds it through
the altitude filter's own previous state, and leaves the pressure
filter state untouched. -/
theorem derived_altitude_formula (cfg : Config) (r : Reads) (now now2 : ℚ) (s : SState) (p : ℚ)
    (hmode : cfg.faultMode ≠ FaultMode.exception)
    (hps : (readPhase cfg r now s).state.pressureSmooth = some p) :
    (updateAll cfg r now now2 s).state.altitudeSmooth =
        some (smooth cfg.sm (readPhase cfg r now s).state.altitudeSmooth (altOf cfg p)) ∧
      (updateAll cfg r now now2 s).state.pressureSmooth = some p := by
  rw [updateAll_eq _ _ _ _ _ hmode]
  have h1 := altBlock_smooth cfg (readPhase cfg r now s).state p hps
  exact ⟨by rw [checkTimeouts_altitudeSmooth, h1.1],
    by rw [checkTimeouts_pressureSmooth, h1.2]⟩

set_option maxRecDepth 100000 in
/-- Witness for C8 at a concrete 1000 hPa read. -/
theorem derived_altitude_formula_witness :
    (readPhase cfgSilent readsIdle 0 sMprLive).state.pressureSmooth = some 1000 ∧
      ((updateAll cfgSilent readsIdle 0 0 sMprLive).state.altitudeSmooth =
          some (smooth cfgSilent.sm
            (readPhase cfgSilent readsIdle 0 sMprLive).state.altitudeSmooth
            (altOf cfgSilent 1000)) ∧
        (updateAll cfgSilent readsIdle 0 0 sMprLive).state.pressureSmooth = some 1000) :=
  ⟨by with_unfolding_all decide, derived_altitude_formula cfgSilent readsIdle 0 0 sMprLive 1000
    (by decide) (by with_unfolding_all decide)⟩

/-- C9: the hPa-to-inHg and m-to-ft conversions are exact mutual
inverses of their reverse conversions in the rational model (each pair
multiplies and divides by one fixed constant), hence within
floating-point tolerance in the source. -/
theorem conversion_roundtrip (x : ℚ) :
    hpa_to_inhg (inhg_to_hpa x) = x ∧ m_to_ft (ft_to_m x) = x := by
  constructor
  · simp only [hpa_to_inhg, inhg_to_hpa]
    rw [div_mul_cancel₀]
    norm_num [inhgPerHpa]
  · simp only [m_to_ft, ft_to_m]
    rw [div_mul_cancel₀]
    norm_num [ftPerM]

/-- C10: in exception fault mode, any driver attach failure during
construction leaves the constructor with a raised SensorFault
(escalated through `_handle_fault`, re-escalated by the constructor's
own handler), so no monitor instance is produced for the caller. -/
theorem exception_attach_failure_raises (cfg : Config) (a : Attaches) (t : ℚ)
    (hm : cfg.faultMode = FaultMode.exception)
    (ha : a.bno ≠ AttachRes.ok ∨ a.mpr ≠ AttachRes.ok ∨
      a.ads1 ≠ AttachRes.ok ∨ a.ads2 ≠ AttachRes.ok) :
    (construct cfg a t).fault ≠ none := by
  rcases a with ⟨ai, ab, am, a1, a2⟩
  cases ai <;> cases ab <;> cases am <;> cases a1 <;> cases a2 <;>
    simp_all [construct, initI2c, initBno, initMpr, initAds1, initAds2,
      handleFault, stepOut, hm]

/-- Witness for C10: a BNO085 attach failure in exception mode. -/
theorem exception_attach_failure_raises_witness :
    (cfgExcMode.faultMode = FaultMode.exception ∧ attBnoFail.bno ≠ AttachRes.ok) ∧
      (construct cfgExcMode attBnoFail 0).fault ≠ none :=
  ⟨by decide, exception_attach_failure_raises cfgExcMode attBnoFail 0 (by decide)
    (Or.inl (by decide))⟩

set_option maxRecDepth 100000 in
/-- C3 counterexample: with previous smoothed pressure 1000 hPa and a
raw sample of 1150 hPa, the stored smoothed value 1030 hPa is inside
the configured range (800, 1100), yet the cycle ends with status WARN —
so the value compared against the bounds is the raw sample, not the
smoothed value. -/
theorem raw_not_smoothed_checked_cx :
    ((updateAll cfgSilent rC3 10 10 sC3).state.recOf Dev.mprls).status = Status.warn ∧
      (updateAll cfgSilent rC3 10 10 sC3).state.pressureSmooth = some 1030 ∧
      (cfgSilent.pressureMin ≤ 1030 ∧ (1030 : ℚ) ≤ cfgSilent.pressureMax) := by
  with_unfolding_all decide

/-- C3 (amended): for Pressure and the analog channels the value
compared against the configured bounds is the raw sample; an
out-of-range sample triggers a Warn escalation that alters neither the
record's `last_update` (set by the same successful read) nor the
smoothed value already stored, which `status_snapshot` still reports. -/
theorem raw_range_check_warn (cfg : Config) (b0 : Read0) (rb : Read2)
    (p v1 v2 now now2 : ℚ) (ps alts a1 a2 a3 a4 la1 : Option ℚ)
    (rcb rcm rc1 rc2 rci : DRec)
    (hmode : cfg.faultMode ≠ FaultMode.exception)
    (hp : ¬(cfg.pressureMin ≤ p ∧ p ≤ cfg.pressureMax))
    (hv1 : ¬(cfg.voltMin ≤ v1 ∧ v1 ≤ cfg.voltMax))
    (hv2 : cfg.voltMin ≤ v2 ∧ v2 ≤ cfg.voltMax)
    (halt : cfg.altMin ≤ altOf cfg (smooth cfg.sm ps p) ∧
      altOf cfg (smooth cfg.sm ps p) ≤ cfg.altMax)
    (hst : ¬ now2 - now > cfg.timeout) :
    let s : SState := ⟨false, true, true, false, ps, alts, a1, a2, a3, a4,
      none, none, la1, none, none, rcb, rcm, rc1, rc2, rci⟩
    let r : Reads := ⟨b0, Read1.ok p, Read2.ok v1 v2, rb⟩
    (updateAll cfg r now now2 s).state.recMpr =
        ⟨Status.warn, some now, some "Pressure out-of-range"⟩ ∧
      (updateAll cfg r now now2 s).state.pressureSmooth = some (smooth cfg.sm ps p) ∧
      (updateAll cfg r now now2 s).state.recAds1 =
        ⟨Status.warn, some now, some "Sensor1 voltage out-of-range"⟩ ∧
      (updateAll cfg r now now2 s).state.analog1 = some (smooth cfg.sm a1 v1) ∧
      (updateAll cfg r now now2 s).state.analog2 = some (smooth cfg.sm a2 v2) ∧
      statusSnapshot (updateAll cfg r now now2 s).state Dev.mprls =
        ⟨Status.warn, some now, some "Pressure out-of-range"⟩ := by
  dsimp only
  simp [updateAll, readPhase, bnoBlock, mprBlock, ads1Block, ads2Block, altBlock,
    checkTimeouts, timeoutOne, warnCaught, handleFault, handleWarn, stepOut,
    SState.setRec, SState.recOf, SState.lastOf, statusSnapshot,
    hmode, hp, hv1, hv2, halt, hst]

set_option maxRecDepth 100000 in
/-- Witness for C3 (amended) at the spec's 5.5 V example plus an
out-of-range 1150 hPa pressure sample. -/
theorem raw_range_check_warn_witness :
    (cfgWarnMode.faultMode ≠ FaultMode.exception ∧
        ¬(cfgWarnMode.pressureMin ≤ 1150 ∧ (1150 : ℚ) ≤ cfgWarnMode.pressureMax) ∧
        ¬(cfgWarnMode.voltMin ≤ (11 / 2 : ℚ) ∧ (11 / 2 : ℚ) ≤ cfgWarnMode.voltMax)) ∧
      ((updateAll cfgWarnMode rC3w 10 10 sC3w).state.recMpr =
          ⟨Status.warn, some 10, some "Pressure out-of-range"⟩ ∧
        (updateAll cfgWarnMode rC3w 10 10 sC3w).state.pressureSmooth =
          some (smooth cfgWarnMode.sm (some 1000) 1150) ∧
        (updateAll cfgWarnMode rC3w 10 10 sC3w).state.recAds1 =
          ⟨Status.warn, some 10, some "Sensor1 voltage out-of-range"⟩ ∧
        (updateAll cfgWarnMode rC3w 10 10 sC3w).state.analog1 =
          some (smooth cfgWarnMode.sm none (11 / 2)) ∧
        (updateAll cfgWarnMode rC3w 10 10 sC3w).state.analog2 =
          some (smooth cfgWarnMode.sm none 1) ∧
        statusSnapshot (updateAll cfgWarnMode rC3w 10 10 sC3w).state Dev.mprls =
          ⟨Status.warn, some 10, some "Pressure out-of-range"⟩) :=
  ⟨⟨by decide, by with_unfolding_all decide, by with_unfolding_all decide⟩,
    raw_range_check_warn cfgWarnMode Read0.ok (Read2.ok 1 1) 1150 (11 / 2) 1 10 10
      (some 1000) none none none none none none uRec uRec uRec uRec uRec
      (by decide) (by with_unfolding_all decide) (by with_unfolding_all decide)
      (by with_unfolding_all decide) (by with_unfolding_all decide)
      (by with_unfolding_all decide)⟩

/-- C5: in exception fault mode, a single event during the poll — a
failed pressure read (Fault severity) or a successful read that is out
of range (Warn severity, caught by the block's `except` clause and
re-escalated) — leaves the cycle with a raised SensorFault, with the
affected device record's status and error fields already updated before
the raise, and with the remaining live devices unpolled. -/
theorem exception_mode_event_aborts (cfg : Config) (b0 : Read0) (rm : Read1) (ra rb : Read2)
    (now now2 : ℚ) (ps alts a1 a2 a3 a4 lb lm la1 la2 li : Option ℚ) (a1L a2L : Bool)
    (rcb rcm rc1 rc2 rci : DRec)
    (hm : cfg.faultMode = FaultMode.exception)
    (hsc : ∀ v, rm = Read1.ok v → ¬(cfg.pressureMin ≤ v ∧ v ≤ cfg.pressureMax)) :
    let s : SState := ⟨false, true, a1L, a2L, ps, alts, a1, a2, a3, a4,
      lb, lm, la1, la2, li, rcb, rcm, rc1, rc2, rci⟩
    let r : Reads := ⟨b0, rm, ra, rb⟩
    (updateAll cfg r now now2 s).fault.isSome = true ∧
      (updateAll cfg r now now2 s).state.recMpr.status = Status.fault ∧
      (updateAll cfg r now now2 s).state.recMpr.error.isSome = true ∧
      (updateAll cfg r now now2 s).state.recMpr.lastUpdate = none ∧
      (updateAll cfg r now now2 s).state.recAds1 = rc1 ∧
      (updateAll cfg r now now2 s).state.recAds2 = rc2 ∧
      (updateAll cfg r now now2 s).state.analog1 = a1 := by
  dsimp only
  cases rm with
  | ok v =>
      have hout := hsc v rfl
      simp [updateAll, readPhase, bnoBlock, mprBlock, warnCaught, handleFault, stepOut,
        SState.setRec, SState.recOf, hm, hout]
  | err m =>
      simp [updateAll, readPhase, bnoBlock, mprBlock, handleFault, stepOut,
        SState.setRec, hm]

set_option maxRecDepth 100000 in
/-- Witness for C5: a failed pressure read in exception mode. -/
theorem exception_mode_event_aborts_witness :
    cfgExcMode.faultMode = FaultMode.exception ∧
      ((updateAll cfgExcMode rC5w 0 0 sC5w).fault.isSome = true ∧
        (updateAll cfgExcMode rC5w 0 0 sC5w).state.recMpr.status = Status.fault ∧
        (updateAll cfgExcMode rC5w 0 0 sC5w).state.recMpr.error.isSome = true ∧
        (updateAll cfgExcMode rC5w 0 0 sC5w).state.recMpr.lastUpdate = none ∧
        (updateAll cfgExcMode rC5w 0 0 sC5w).state.recAds1 = uRec ∧
        (updateAll cfgExcMode rC5w 0 0 sC5w).state.recAds2 = uRec ∧
        (updateAll cfgExcMode rC5w 0 0 sC5w).state.analog1 = none) :=
  ⟨by decide,
    exception_mode_event_aborts cfgExcMode Read0.ok (Read1.err "boom")
      (Read2.ok 1 1) (Read2.ok 1 1) 0 0 none none none none none none
      none none none none none true false uRec uRec uRec uRec uRec
      (by decide) (fun v h => by simp at h)⟩

/-- C6: outside exception mode a poll never raises, and a failed
pressure read does not prevent the analog bank from being polled and
updated in the same cycle. -/
theorem silent_warn_no_raise (cfg : Config) (b0 : Read0) (m : String) (rb : Read2)
    (v1 v2 now now2 : ℚ) (alts a1 a2 a3 a4 la1 : Option ℚ)
    (rcb rcm rc1 rc2 rci : DRec)
    (hmode : cfg.faultMode ≠ FaultMode.exception)
    (hv1 : cfg.voltMin ≤ v1 ∧ v1 ≤ cfg.voltMax)
    (hv2 : cfg.voltMin ≤ v2 ∧ v2 ≤ cfg.voltMax)
    (hst : ¬ now2 - now > cfg.timeout) :
    (∀ r2 s2, (updateAll cfg r2 now now2 s2).fault = none) ∧
      (let s : SState := ⟨false, true, true, false, none, alts, a1, a2, a3, a4,
          none, none, la1, none, none, rcb, rcm, rc1, rc2, rci⟩
       let r : Reads := ⟨b0, Read1.err m, Read2.ok v1 v2, rb⟩
       (updateAll cfg r now now2 s).state.recAds1 = ⟨Status.ok, some now, none⟩ ∧
         (updateAll cfg r now now2 s).state.analog1 = some (smooth cfg.sm a1 v1) ∧
         (updateAll cfg r now now2 s).state.analog2 = some (smooth cfg.sm a2 v2) ∧
         (updateAll cfg r now now2 s).state.recMpr.status = Status.fault) := by
  refine ⟨fun r2 s2 => updateAll_fault_none _ _ _ _ _ hmode, ?_⟩
  dsimp only
  simp [updateAll, readPhase, bnoBlock, mprBlock, ads1Block, ads2Block, altBlock,
    checkTimeouts, timeoutOne, handleFault, stepOut,
    SState.setRec, SState.recOf, SState.lastOf, hmode, hv1, hv2, hst]

set_option maxRecDepth 100000 in
/-- Witness for C6: silent mode, failed pressure read, healthy bank one. -/
theorem silent_warn_no_raise_witness :
    (cfgSilent.faultMode ≠ FaultMode.exception ∧
        (cfgSilent.voltMin ≤ (1 : ℚ) ∧ (1 : ℚ) ≤ cfgSilent.voltMax)) ∧
      ((updateAll cfgSilent rC6w 0 0 sC5w).state.recAds1 = ⟨Status.ok, some 0, none⟩ ∧
        (updateAll cfgSilent rC6w 0 0 sC5w).state.analog1 =
          some (smooth cfgSilent.sm none 1) ∧
        (updateAll cfgSilent rC6w 0 0 sC5w).state.analog2 =
          some (smooth cfgSilent.sm none 2) ∧
        (updateAll cfgSilent rC6w 0 0 sC5w).state.recMpr.status = Status.fault) :=
  ⟨⟨by decide, by with_unfolding_all decide⟩,
    (silent_warn_no_raise cfgSilent Read0.ok "boom" (Read2.ok 1 1) 1 2 0 0
      none none none none none none uRec uRec uRec uRec uRec
      (by decide) (by with_unfolding_all decide) (by with_unfolding_all decide)
      (by with_unfolding_all decide)).2⟩

end Efis
